import Mathlib

/-!
Verification of the zenkai provisioning scripts.

This file gives a shallow embedding of the three Python provisioning
scripts (`setup_docker_environment.py`, `setup_laravel_backend.py`,
`setup_nextjs_frontend.py`) and proves theorems about the pipeline
behaviour, the generated file contents and the failure handling.

External effects (subprocess exit codes, filesystem errors) are modelled
as explicit oracle parameters; the control flow, the step ordering, the
generated file templates and the logging are translated directly from the
source.
-/

/-- Boolean test that `needle` is a prefix of `hay`, on character lists. -/
def isPrefList : List Char → List Char → Bool
  | [], _ => true
  | _ :: _, [] => false
  | c :: nt, d :: ht => if c = d then isPrefList nt ht else false

/-- Boolean substring test on character lists; this is the embedding of the
Python membership test `needle in hay` on strings. -/
def hasSubstr : List Char → List Char → Bool
  | [], needle => needle.isEmpty
  | c :: t, needle => isPrefList needle (c :: t) || hasSubstr t needle

/-- String-level substring test (Python `needle in hay`). -/
def strHas (hay needle : String) : Bool := hasSubstr hay.data needle.data

/-! ### The ordered-steps pipeline of `DockerEnvironmentSetup.run`

`run` iterates over an ordered list of `(label, operation)` pairs, calling
each operation in turn; on the first operation returning `False`, it prints
`Setup failed at: <label>` and returns `False`; if all succeed it returns
`True`.  We abstract each operation by its boolean outcome and record which
step indices were executed, the reported failure label and the overall
result. -/
structure PipelineResult where
  executed : List Nat
  failedLabel : Option String
  success : Bool
deriving DecidableEq, Repr

/-- Embedding of the step loop of `DockerEnvironmentSetup.run`: execute each
step in order, stopping at the first failure and reporting its label. -/
def runSteps : List (String × Bool) → PipelineResult
  | [] => ⟨[], none, true⟩
  | (label, ok) :: rest =>
    if ok then
      let r := runSteps rest
      ⟨0 :: r.executed.map (· + 1), r.failedLabel, r.success⟩
    else ⟨[0], some label, false⟩

/-! ### Docker environment provisioner: step list and exit code -/
/-- The eight step labels of `DockerEnvironmentSetup.run`, in pipeline
order, copied from the `steps` list in the source. -/
def dockerStepLabels : List String :=
  ["Creating docker-compose.yml",
   "Creating backend Dockerfile",
   "Creating nginx config",
   "Creating frontend Dockerfile",
   "Creating environment files",
   "Creating .dockerignore files",
   "Starting containers",
   "Verifying setup"]

namespace DockerEnvironmentSetup

/-- Embedding of `DockerEnvironmentSetup.run`: the eight steps are executed
in order with the given boolean outcomes; the first failure stops the
pipeline. -/
def run (outcomes : List Bool) : PipelineResult :=
  runSteps (dockerStepLabels.zip outcomes)

/-- Fixed summary printed by `verify_setup` on success (service endpoints
and next manual steps). -/
def verifySuccessLines : List String :=
  ["✓ All services are running",
   "🎉 Docker environment setup complete!",
   "📍 Services:",
   "   Laravel API:  http://localhost:8000",
   "   Next.js:      http://localhost:3000",
   "   Mailhog UI:   http://localhost:8025",
   "   MySQL:        localhost:3306",
   "📝 Next steps:",
   "   1. Run: cd backend && composer install",
   "   2. Run: cd frontend && npm install",
   "   3. Run migrations: docker compose exec laravel php artisan migrate"]

/-- Embedding of `DockerEnvironmentSetup.verify_setup`: given the captured
standard output of `docker compose ps`, it checks for the substring `"Up"`;
on success it prints the fixed summary and returns `True`, otherwise it
prints a warning plus the raw status and returns `False`. -/
def verify_setup (psStdout : String) : List String × Bool :=
  if hasSubstr psStdout.data "Up".data then (verifySuccessLines, true)
  else (["⚠ Some services may not be running properly", psStdout], false)

end DockerEnvironmentSetup

/-- Embedding of `main` in `setup_docker_environment.py`:
`sys.exit(0 if success else 1)`. -/
def dockerMainExit (outcomes : List Bool) : Nat :=
  if (DockerEnvironmentSetup.run outcomes).success then 0 else 1

/-! ### Backend and frontend provisioners

`setup_laravel_backend.py` and `setup_nextjs_frontend.py` both run
container commands through `run_docker_command`, which on failure prints
the error plus the captured standard output/error and re-raises.  We model
each external command by a `CmdResult` oracle, record the sequence of
executed commands as events, the printed diagnostics as a log, and the
process outcome (normal return, `sys.exit`, or an unhandled exception). -/
/-- Result of one `subprocess.run` call: exit status and captured output. -/
structure CmdResult where
  ok : Bool
  stdout : String
  stderr : String
deriving DecidableEq, Repr

/-- Diagnostic lines printed by `run_docker_command` when the invoked
command fails: the error notice and the captured standard output/error. -/
def runDockerFailLog (r : CmdResult) : List String :=
  ["Error running command", "Stdout: " ++ r.stdout, "Stderr: " ++ r.stderr]

/-- How the Python process ends: a normal return from `run` (exit code 0),
an explicit `sys.exit(code)`, or an unhandled exception (nonzero exit). -/
inductive RunOutcome
  | completed
  | exited (code : Nat)
  | uncaught
deriving DecidableEq, Repr

/-- Process exit code for each outcome (an unhandled exception makes the
interpreter exit with code 1). -/
def processExitCode : RunOutcome → Nat
  | .completed => 0
  | .exited code => code
  | .uncaught => 1

namespace LaravelBackendSetup

/-- Oracle for the external effects of one `LaravelBackendSetup` run: the
marker-file check and the result of each container command. -/
structure BackendEnv where
  composerJsonExists : Bool
  createProject : CmdResult
  moveFiles : CmdResult
  chownCmd : CmdResult
  chmodCmd : CmdResult
  requirePkg : String → CmdResult
  requireFilament : CmdResult
  filamentInstall : CmdResult
  migrate : CmdResult

/-- One executed container command of the backend provisioner. -/
inductive BackendEvent
  | createProject
  | moveFiles
  | chownCmd
  | chmodCmd
  | requirePkg (pkg : String)
  | requireFilament
  | filamentInstall
  | migrate
deriving DecidableEq, Repr

/-- The fixed dependency list of `install_dependencies`. -/
def backendPackages : List String :=
  ["laravel/sanctum",
   "spatie/laravel-permission",
   "spatie/laravel-medialibrary",
   "spatie/laravel-sluggable"]

/-- Embedding of `check_laravel_installed`: presence of
`backend/composer.json`. -/
def check_laravel_installed (env : BackendEnv) : Bool :=
  env.composerJsonExists

/-- Embedding of `install_laravel`: four container commands in order inside
one `try`; the first failure prints a diagnostic and calls `sys.exit(1)`
(`some 1` in the result). -/
def install_laravel (env : BackendEnv) :
    List BackendEvent × List String × Option Nat :=
  if env.createProject.ok = false then
    ([.createProject],
     runDockerFailLog env.createProject ++ ["✗ Failed to install Laravel"],
     some 1)
  else if env.moveFiles.ok = false then
    ([.createProject, .moveFiles],
     runDockerFailLog env.moveFiles ++ ["✗ Failed to install Laravel"],
     some 1)
  else if env.chownCmd.ok = false then
    ([.createProject, .moveFiles, .chownCmd],
     runDockerFailLog env.chownCmd ++ ["✗ Failed to install Laravel"],
     some 1)
  else if env.chmodCmd.ok = false then
    ([.createProject, .moveFiles, .chownCmd, .chmodCmd],
     runDockerFailLog env.chmodCmd ++ ["✗ Failed to install Laravel"],
     some 1)
  else
    ([.createProject, .moveFiles, .chownCmd, .chmodCmd],
     ["✓ Laravel installed successfully"], none)

/-- Log lines of one package install attempt inside
`install_dependencies`: a failure is caught and logged, never fatal. -/
def pkgLog (env : BackendEnv) (pkg : String) : List String :=
  if (env.requirePkg pkg).ok then []
  else runDockerFailLog (env.requirePkg pkg) ++
    ["✗ Failed to install " ++ pkg]

/-- Embedding of `install_dependencies`: every package in
`backendPackages` is attempted (each in its own `try`), failures are
logged and the loop continues. -/
def install_dependencies (env : BackendEnv) :
    List BackendEvent × List String :=
  (backendPackages.map .requirePkg, (backendPackages.map (pkgLog env)).flatten)

/-- Embedding of `install_admin_panel`: for `filament`, require the
package then run the installer inside one `try` (a failure of the first
command skips the second); any failure is caught and logged.  For `nova`,
only a manual-setup notice is printed. -/
def install_admin_panel (adminPanel : String) (env : BackendEnv) :
    List BackendEvent × List String :=
  if adminPanel = "filament" then
    if env.requireFilament.ok = false then
      ([.requireFilament],
       runDockerFailLog env.requireFilament ++
         ["✗ Failed to install admin panel"])
    else if env.filamentInstall.ok = false then
      ([.requireFilament, .filamentInstall],
       runDockerFailLog env.filamentInstall ++
         ["✗ Failed to install admin panel"])
    else ([.requireFilament, .filamentInstall], [])
  else if adminPanel = "nova" then
    ([], ["⚠ Nova installation requires a license key and auth.json. Skipping exact steps."])
  else ([], [])

/-- Embedding of `run_migrations`: sleep, then the migrate command; a
failure is caught and logged, never fatal. -/
def run_migrations (env : BackendEnv) : List BackendEvent × List String :=
  if env.migrate.ok then ([.migrate], ["✓ Migrations completed"])
  else ([.migrate], runDockerFailLog env.migrate ++
    ["✗ Failed to run migrations"])

/-- The unconditional tail of `run`: dependencies, admin panel,
migrations, then the completion banner. -/
def afterInstall (adminPanel : String) (env : BackendEnv) :
    List BackendEvent × List String :=
  ((install_dependencies env).1 ++ (install_admin_panel adminPanel env).1 ++
     (run_migrations env).1,
   (install_dependencies env).2 ++ (install_admin_panel adminPanel env).2 ++
     (run_migrations env).2 ++ ["🎉 Laravel Backend Setup Complete!"])

/-- Embedding of `LaravelBackendSetup.run`: skip installation when the
marker file exists, otherwise install (fatal on failure); then always run
the best-effort steps and return normally (process exit code 0). -/
def run (adminPanel : String) (env : BackendEnv) :
    RunOutcome × List BackendEvent × List String :=
  if check_laravel_installed env then
    (.completed, (afterInstall adminPanel env).1,
     "ℹ️ Laravel already installed (composer.json found). Skipping installation." ::
       (afterInstall adminPanel env).2)
  else
    match install_laravel env with
    | (es, ls, some code) => (.exited code, es, ls)
    | (es, ls, none) =>
      (.completed, es ++ (afterInstall adminPanel env).1,
       ls ++ (afterInstall adminPanel env).2)

end LaravelBackendSetup

namespace NextJsFrontendSetup

/-- Oracle for the external effects of one `NextJsFrontendSetup` run: the
marker-file check, the container command results, and the success of each
local filesystem operation (`mkdir`, writing `lib/api.ts`). -/
structure FrontendEnv where
  packageJsonExists : Bool
  createNextApp : CmdResult
  moveFiles : CmdResult
  npmInstall : CmdResult
  npmInstallDev : CmdResult
  mkdirOk : String → Bool
  writeApiOk : Bool

/-- One executed action of the frontend provisioner. -/
inductive FrontendEvent
  | createNextApp
  | moveFiles
  | npmInstall
  | npmInstallDev
  | mkdir (dir : String)
  | writeApi (content : String)
deriving DecidableEq, Repr

/-- The fixed directory skeleton of `create_directory_structure`. -/
def frontendDirs : List String :=
  ["app/(shop)/products/[slug]",
   "app/(shop)/cart",
   "app/(shop)/checkout",
   "app/(travel)/tours/[slug]",
   "app/(travel)/booking",
   "app/(restaurant)/menu",
   "app/(restaurant)/reservation",
   "app/(corporate)/services",
   "app/(corporate)/portfolio",
   "app/(corporate)/about",
   "app/(corporate)/contact",
   "app/api/revalidate",
   "components/shared",
   "components/themes/shop",
   "components/themes/travel",
   "components/themes/restaurant",
   "components/themes/corporate",
   "lib",
   "types",
   "public/images",
   "public/fonts",
   "public/icons"]

/-- The static content of `frontend/lib/api.ts` written by
`create_api_client` (brace and quote characters escaped). -/
def apiTsContent : String :=
  "import axios from \x27axios\x27\n\nconst api = axios.create(\x7b\n  baseURL: process.env.NEXT_PUBLIC_API_URL || \x27http://localhost:8000/api/v1\x27,\n  headers: \x7b\n    \x27Content-Type\x27: \x27application/json\x27,\n  \x7d,\n\x7d)\n\n// Product API\nexport const productApi = \x7b\n  getAll: async (params?: \x7b category_id?: number; search?: string \x7d) => \x7b\n    const \x7b data \x7d = await api.get(\x27/shop/products\x27, \x7b params \x7d)\n    return data\n  \x7d,\n  getBySlug: async (slug: string) => \x7b\n    const \x7b data \x7d = await api.get(`/shop/products/$\x7bslug\x7d`)\n    return data\n  \x7d,\n\x7d\n\nexport default api\n"

/-- Embedding of `check_nextjs_installed`: presence of
`frontend/package.json`. -/
def check_nextjs_installed (env : FrontendEnv) : Bool :=
  env.packageJsonExists

/-- Embedding of `install_nextjs`: two container commands inside one
`try`; the first failure prints a diagnostic and calls `sys.exit(1)`. -/
def install_nextjs (env : FrontendEnv) :
    List FrontendEvent × List String × Option Nat :=
  if env.createNextApp.ok = false then
    ([.createNextApp],
     runDockerFailLog env.createNextApp ++ ["✗ Failed to install Next.js"],
     some 1)
  else if env.moveFiles.ok = false then
    ([.createNextApp, .moveFiles],
     runDockerFailLog env.moveFiles ++ ["✗ Failed to install Next.js"],
     some 1)
  else
    ([.createNextApp, .moveFiles],
     ["✓ Next.js initialized successfully"], none)

/-- Embedding of `install_dependencies`: both `npm install` commands share
one `try`, so a failure of the first skips the second; either failure is
caught and logged, never fatal. -/
def install_dependencies (env : FrontendEnv) :
    List FrontendEvent × List String :=
  if env.npmInstall.ok = false then
    ([.npmInstall],
     runDockerFailLog env.npmInstall ++ ["✗ Failed to install dependencies"])
  else if env.npmInstallDev.ok = false then
    ([.npmInstall, .npmInstallDev],
     runDockerFailLog env.npmInstallDev ++
       ["✗ Failed to install dependencies"])
  else ([.npmInstall, .npmInstallDev], ["✓ Dependencies installed"])

/-- Embedding of the `mkdir` loop of `create_directory_structure`: there
is no exception handler, so the first failing `mkdir` raises out of the
whole run (`false` in the result). -/
def mkdirLoop (env : FrontendEnv) : List String → List FrontendEvent × Bool
  | [] => ([], true)
  | d :: rest =>
    if env.mkdirOk d then
      ((.mkdir d) :: (mkdirLoop env rest).1, (mkdirLoop env rest).2)
    else ([.mkdir d], false)

/-- Embedding of `NextJsFrontendSetup.run`: marker check, installation
(fatal on failure), best-effort dependency installation, then the
unguarded directory creation and API-client write, whose failures raise
unhandled exceptions.  The `theme` argument is stored by `__init__` and
never used. -/
def run (theme : String) (env : FrontendEnv) :
    RunOutcome × List FrontendEvent × List String :=
  let tail : List FrontendEvent × List String × RunOutcome :=
    let deps := install_dependencies env
    let dirs := mkdirLoop env frontendDirs
    if dirs.2 = false then (deps.1 ++ dirs.1, deps.2, .uncaught)
    else if env.writeApiOk = false then
      (deps.1 ++ dirs.1 ++ [.writeApi apiTsContent], deps.2, .uncaught)
    else
      (deps.1 ++ dirs.1 ++ [.writeApi apiTsContent],
       deps.2 ++ ["✓ Created lib/api.ts", "✨ Frontend setup complete!"],
       .completed)
  if check_nextjs_installed env then
    (tail.2.2, tail.1,
     "ℹ️ Next.js already initialized. Skipping install." :: tail.2.1)
  else
    match install_nextjs env with
    | (es, ls, some code) => (.exited code, es, ls)
    | (es, ls, none) => (tail.2.2, es ++ tail.1, ls ++ tail.2.1)

end NextJsFrontendSetup

/-- An external command that succeeds with empty captured output. -/
def cmdOk : CmdResult := ⟨true, "", ""⟩

/-- Frontend oracle in which everything succeeds except the final
`lib/api.ts` write. -/
def apiWriteFailEnv : NextJsFrontendSetup.FrontendEnv :=
  { packageJsonExists := true, createNextApp := cmdOk, moveFiles := cmdOk,
    npmInstall := cmdOk, npmInstallDev := cmdOk,
    mkdirOk := fun _ => true, writeApiOk := false }

/-- Frontend oracle in which everything succeeds except the creation of
the `lib` directory of the skeleton. -/
def mkdirFailEnv : NextJsFrontendSetup.FrontendEnv :=
  { packageJsonExists := true, createNextApp := cmdOk, moveFiles := cmdOk,
    npmInstall := cmdOk, npmInstallDev := cmdOk,
    mkdirOk := fun d => d != "lib", writeApiOk := true }

/-- Backend oracle: marker file present, all commands succeed. -/
def markerBackendEnv : LaravelBackendSetup.BackendEnv :=
  { composerJsonExists := true, createProject := cmdOk, moveFiles := cmdOk,
    chownCmd := cmdOk, chmodCmd := cmdOk, requirePkg := fun _ => cmdOk,
    requireFilament := cmdOk, filamentInstall := cmdOk, migrate := cmdOk }

/-- Frontend oracle: marker file present, all operations succeed. -/
def markerFrontendEnv : NextJsFrontendSetup.FrontendEnv :=
  { packageJsonExists := true, createNextApp := cmdOk, moveFiles := cmdOk,
    npmInstall := cmdOk, npmInstallDev := cmdOk,
    mkdirOk := fun _ => true, writeApiOk := true }

/-- Backend oracle: marker present, every best-effort command fails with
captured output. -/
def bestEffortFailEnv : LaravelBackendSetup.BackendEnv :=
  { composerJsonExists := true, createProject := cmdOk, moveFiles := cmdOk,
    chownCmd := cmdOk, chmodCmd := cmdOk,
    requirePkg := fun _ => ⟨false, "pkg-out", "pkg-err"⟩,
    requireFilament := ⟨false, "adm-out", "adm-err"⟩,
    filamentInstall := cmdOk, migrate := ⟨false, "mig-out", "mig-err"⟩ }

/-! ### `generate_app_key`: base64 of 32 random bytes

`generate_app_key` returns `f"base64:{base64.b64encode(random_bytes).decode()}"`
with `random_bytes = secrets.token_bytes(32)`.  We embed the standard
base64 encoding (RFC 4648, as computed by Python `base64.b64encode`) over
byte lists and abstract the random source as the byte-list argument. -/
/-- The base64 alphabet indexed 0..63, plus the padding character at
index 64. -/
def b64char (n : Nat) : Char :=
  if n < 26 then Char.ofNat (65 + n)
  else if n < 52 then Char.ofNat (97 + (n - 26))
  else if n < 62 then Char.ofNat (48 + (n - 52))
  else if n = 62 then Char.ofNat 43
  else if n = 63 then Char.ofNat 47
  else Char.ofNat 61

/-- The 6-bit chunk sequence of base64: groups of three bytes become four
sextets; a final group of one or two bytes is padded (64 marks `=`). -/
def b64chunks : List Nat → List Nat
  | [] => []
  | [b0] => [b0 / 4, b0 % 4 * 16, 64, 64]
  | [b0, b1] => [b0 / 4, b0 % 4 * 16 + b1 / 16, b1 % 16 * 4, 64]
  | b0 :: b1 :: b2 :: rest =>
    b0 / 4 :: (b0 % 4 * 16 + b1 / 16) :: (b1 % 16 * 4 + b2 / 64) ::
      b2 % 64 :: b64chunks rest

/-- Base64 encoding of a byte list, as a character list. -/
def b64encodeList (bs : List Nat) : List Char :=
  (b64chunks bs).map b64char

/-- Base64 encoding of a byte list, as a string (Python
`base64.b64encode(bs).decode()`). -/
def b64encode (bs : List Nat) : String :=
  String.mk (b64encodeList bs)

/-- Embedding of `DockerEnvironmentSetup.generate_app_key`, with the 32
random bytes drawn by `secrets.token_bytes(32)` made explicit. -/
def generate_app_key (randomBytes : List Nat) : String :=
  "base64:" ++ b64encode randomBytes

/-- The `docker-compose.yml` content of
`DockerEnvironmentSetup.create_docker_compose`. -/
def docker_compose_content
    (project_name mysql_password mysql_database : String) : String :=
  "version: \x273.8\x27\n\nservices:\n  # MySQL Database" ++
  "\n  mysql:\n" ++
  "    image: mysql:8.0\n    platform: linux/amd64\n    " ++
  "container_name: " ++ project_name ++ "_mysql\n" ++
  "    ports:\n      - \"3307:3306\"\n    environment:\n      " ++
  "MYSQL_ROOT_PASSWORD: " ++ mysql_password ++ "\n" ++
  "      " ++ "MYSQL_DATABASE: " ++ mysql_database ++ "\n" ++
  "    volumes:\n      - mysql_data:/var/lib/mysql\n    networks:\n      - cms_network\n    healthcheck:\n      test: [\"CMD\", \"mysqladmin\", \"ping\", \"-h\", \"localhost\", \"-u\", \"root\", \"-p" ++
  mysql_password ++
  "\"]\n      interval: 10s\n      timeout: 5s\n      retries: 5\n    restart: unless-stopped\n\n  # Redis Cache" ++
  "\n  redis:\n" ++
  "    image: redis:7-alpine\n    platform: linux/amd64\n    " ++
  "container_name: " ++ project_name ++ "_redis\n" ++
  "    ports:\n      - \"6379:6379\"\n    volumes:\n      - redis_data:/data\n    networks:\n      - cms_network\n    healthcheck:\n      test: [\"CMD\", \"redis-cli\", \"ping\"]\n      interval: 10s\n      timeout: 5s\n      retries: 5\n    restart: unless-stopped\n\n  # Laravel Backend" ++
  "\n  laravel:\n" ++
  "    build:\n      context: ./backend\n      dockerfile: Dockerfile\n    " ++
  "container_name: " ++ project_name ++ "_laravel\n" ++
  "    # ports:\n    #   - \"8000:80\"  <-- Removed to enforce access via Next.js proxy\n    volumes:\n      - ./backend:/var/www/html\n      - storage_data:/var/www/html/storage\n    environment:\n      - APP_ENV=local\n      - APP_DEBUG=true\n    networks:\n      - cms_network\n    depends_on:\n      mysql:\n        condition: service_healthy\n      redis:\n        condition: service_healthy\n    restart: unless-stopped\n\n  # Next.js Frontend" ++
  "\n  nextjs:\n" ++
  "    build:\n      context: ./frontend\n      dockerfile: Dockerfile\n    " ++
  "container_name: " ++ project_name ++ "_nextjs\n" ++
  "    ports:\n      - \"3000:3000\"\n    volumes:\n      - ./frontend:/app\n      - /app/node_modules\n      - /app/.next\n    environment:\n      - NODE_ENV=development\n      - NEXT_PUBLIC_API_URL=http://localhost:8000/api/v1\n    networks:\n      - cms_network\n    depends_on:\n      - laravel\n    restart: unless-stopped\n\n  # Mailhog (Email Testing)" ++
  "\n  mailhog:\n" ++
  "    image: mailhog/mailhog:latest\n    platform: linux/amd64\n    " ++
  "container_name: " ++ project_name ++ "_mailhog\n" ++
  "    ports:\n      - \"1025:1025\"  # SMTP\n      - \"8025:8025\"  # Web UI\n    networks:\n      - cms_network\n    restart: unless-stopped\n\nnetworks:\n  cms_network:\n    driver: bridge\n\nvolumes:\n  mysql_data:\n    driver: local\n  redis_data:\n    driver: local\n  storage_data:\n    driver: local\n"

/-- The `backend/.env` content of `create_env_files`, with the generated
app key, the database name and the database password interpolated. -/
def backend_env_content (app_key mysql_database mysql_password : String) :
    String :=
  "APP_NAME=\"CMS System\"\nAPP_ENV=local\nAPP_KEY=" ++ app_key ++
  "\nAPP_DEBUG=true\nAPP_URL=http://localhost:8000\n\nLOG_CHANNEL=stack\nLOG_LEVEL=debug\n\nDB_CONNECTION=mysql\nDB_HOST=mysql\nDB_PORT=3306" ++
  "\nDB_DATABASE=" ++ mysql_database ++ "\n" ++
  "DB_USERNAME=root" ++
  "\nDB_PASSWORD=" ++ mysql_password ++ "\n" ++
  "\nBROADCAST_DRIVER=log\nCACHE_DRIVER=redis\nFILESYSTEM_DISK=local\nQUEUE_CONNECTION=sync\nSESSION_DRIVER=file\nSESSION_LIFETIME=120\n\nREDIS_HOST=redis\nREDIS_PASSWORD=null\nREDIS_PORT=6379\n\nMAIL_MAILER=smtp\nMAIL_HOST=mailhog\nMAIL_PORT=1025\nMAIL_USERNAME=null\nMAIL_PASSWORD=null\nMAIL_ENCRYPTION=null\nMAIL_FROM_ADDRESS=\"hello@example.com\"\nMAIL_FROM_NAME=\"$\x7bAPP_NAME\x7d\"\n"

/-- The `frontend/.env.local` content of `create_env_files`. -/
def frontend_env_content : String :=
  "NEXT_PUBLIC_API_URL=http://localhost:8000/api/v1\nNEXT_PUBLIC_SITE_URL=http://localhost:3000\n"

/-- Scanner for Python `str.replace`: at `skip = 0` it checks for an
occurrence of the needle at the current position, emits the replacement
and skips the rest of the match on success; a positive `skip` consumes a
character still belonging to the previous match. -/
def replaceAllGo (needle repl : List Char) : Nat → List Char → List Char
  | _, [] => []
  | 0, c :: rest =>
    if needle.length > 0 ∧ isPrefList needle (c :: rest) = true then
      repl ++ replaceAllGo needle repl (needle.length - 1) rest
    else c :: replaceAllGo needle repl 0 rest
  | skip + 1, _ :: rest => replaceAllGo needle repl skip rest

/-- Embedding of Python `str.replace` on character lists for a nonempty
needle: scan left to right, replace each leftmost non-overlapping
occurrence.  (The source only ever calls it with the database password as
needle.) -/
def replaceAll (needle repl s : List Char) : List Char :=
  replaceAllGo needle repl 0 s

/-- String-level Python `str.replace`. -/
def pyReplace (s needle repl : String) : String :=
  String.mk (replaceAll needle.data repl.data s.data)

/-- Embedding of `create_env_files`: the four files written, in order,
with the `.env.example` password redaction
(`backend_env.replace(self.mysql_password, "your_password_here")`). -/
def create_env_files (mysql_password mysql_database : String)
    (randomBytes : List Nat) : List (String × String) :=
  let app_key := generate_app_key randomBytes
  let backend_env := backend_env_content app_key mysql_database mysql_password
  [("backend/.env", backend_env),
   ("frontend/.env.local", frontend_env_content),
   ("backend/.env.example",
    pyReplace backend_env mysql_password "your_password_here"),
   ("frontend/.env.example", frontend_env_content)]

/-- The `backend/docker/nginx.conf` content of `create_nginx_config`
(brace, quote and backslash characters escaped). -/
def nginx_config : String :=
  "user www-data;\nworker_processes auto;\nerror_log /var/log/nginx/error.log;\npid /run/nginx.pid;\n\nevents \x7b\n    worker_connections 1024;\n\x7d\n\nhttp \x7b\n    include /etc/nginx/mime.types;\n    default_type application/octet-stream;\n\n    log_format main \x27$remote_addr - $remote_user [$time_local] \"$request\" \x27\n                    \x27$status $body_bytes_sent \"$http_referer\" \x27\n                    \x27\"$http_user_agent\" \"$http_x_forwarded_for\"\x27;\n\n    access_log /var/log/nginx/access.log main;\n\n    sendfile on;\n    tcp_nopush on;\n    keepalive_timeout 65;\n    gzip on;\n\n    server \x7b\n        listen 80;\n        server_name localhost;\n        root /var/www/html/public;\n\n        index index.php index.html;\n\n        location / \x7b\n            try_files $uri $uri/ /index.php?$query_string;\n        \x7d\n\n        location ~ \\.php$ \x7b\n            fastcgi_pass 127.0.0.1:9000;\n            fastcgi_index index.php;\n            fastcgi_param SCRIPT_FILENAME $document_root$fastcgi_script_name;\n            include fastcgi_params;\n        \x7d\n\n" ++
  "        location ~ /\\.ht \x7b\n            deny all;\n        \x7d\n" ++
  "    \x7d\n\x7d\n"

/-- Matching semantics of the generated deny rule `location ~ /\.ht`: an
unanchored nginx location regex whose only special character is the
escaped dot, so it matches exactly the request URIs containing the
literal substring `/.ht`. -/
def denyRuleMatches (path : String) : Bool := strHas path "/.ht"

/-- A request path rendered from its components: `/c1/c2/.../cn`. -/
def renderPath : List String → String
  | [] => ""
  | c :: rest => "/" ++ c ++ renderPath rest

/-- The `backend/.env` template up to and including `DB_PASSWORD=`. -/
def env_before_password (app_key mysql_database : String) : String :=
  "APP_NAME=\"CMS System\"\nAPP_ENV=local\nAPP_KEY=" ++ app_key ++
  "\nAPP_DEBUG=true\nAPP_URL=http://localhost:8000\n\nLOG_CHANNEL=stack\nLOG_LEVEL=debug\n\nDB_CONNECTION=mysql\nDB_HOST=mysql\nDB_PORT=3306" ++
  "\nDB_DATABASE=" ++ mysql_database ++ "\n" ++
  "DB_USERNAME=root" ++
  "\nDB_PASSWORD="

/-- The `backend/.env` template after the password value. -/
def env_after_password : String :=
  "\n" ++
  "\nBROADCAST_DRIVER=log\nCACHE_DRIVER=redis\nFILESYSTEM_DISK=local\nQUEUE_CONNECTION=sync\nSESSION_DRIVER=file\nSESSION_LIFETIME=120\n\nREDIS_HOST=redis\nREDIS_PASSWORD=null\nREDIS_PORT=6379\n\nMAIL_MAILER=smtp\nMAIL_HOST=mailhog\nMAIL_PORT=1025\nMAIL_USERNAME=null\nMAIL_PASSWORD=null\nMAIL_ENCRYPTION=null\nMAIL_FROM_ADDRESS=\"hello@example.com\"\nMAIL_FROM_NAME=\"$\x7bAPP_NAME\x7d\"\n"

theorem isPrefList_iff {n h : List Char} : isPrefList n h = true ↔ n <+: h := by
  induction n generalizing h with
  | nil => simp [isPrefList]
  | cons c nt ih =>
    cases h with
    | nil => simp [isPrefList]
    | cons d ht =>
      by_cases hc : c = d
      · subst hc
        simp [isPrefList, ih, List.cons_prefix_cons]
      · simp [isPrefList, hc, List.cons_prefix_cons]

theorem hasSubstr_iff {h n : List Char} : hasSubstr h n = true ↔ n <:+: h := by
  induction h with
  | nil =>
    simp [hasSubstr, List.isEmpty_iff]
  | cons c t ih =>
    simp [hasSubstr, isPrefList_iff, ih, List.infix_cons_iff]

theorem strHas_of_split (pre needle post hay : String)
    (h : hay = pre ++ needle ++ post) : strHas hay needle = true := by
  rw [strHas, hasSubstr_iff, h]
  exact ⟨pre.data, post.data, by simp⟩

theorem getD_zip {α β : Type} (l1 : List α) (l2 : List β) (j : Nat)
    (d : α × β) (d1 : α) (d2 : β)
    (h1 : j < l1.length) (h2 : j < l2.length) :
    (l1.zip l2).getD j d = (l1.getD j d1, l2.getD j d2) := by
  induction l1 generalizing l2 j with
  | nil => simp at h1
  | cons a l1 ih =>
    cases l2 with
    | nil => simp at h2
    | cons b l2 =>
      cases j with
      | zero => simp [List.getD]
      | succ j =>
        simp only [List.zip_cons_cons, List.getD_cons_succ]
        exact ih l2 j (by simpa using h1) (by simpa using h2)

theorem runSteps_first_fail (steps : List (String × Bool)) (k : Nat)
    (hk : k < steps.length)
    (hbefore : ∀ j, j < k → (steps.getD j ("", true)).2 = true)
    (hfail : (steps.getD k ("", true)).2 = false) :
    runSteps steps =
      ⟨List.range (k + 1), some (steps.getD k ("", true)).1, false⟩ := by
  induction steps generalizing k with
  | nil => simp at hk
  | cons s rest ih =>
    obtain ⟨label, ok⟩ := s
    cases k with
    | zero =>
      simp only [List.getD_cons_zero] at hfail
      simp [runSteps, hfail, List.range_succ]
    | succ k =>
      have h0 : ok = true := by
        have := hbefore 0 (Nat.succ_pos k)
        simpa using this
      subst h0
      have hrest : runSteps rest =
          ⟨List.range (k + 1), some ((rest.getD k ("", true)).1), false⟩ := by
        refine ih k (by simpa using hk) ?_ ?_
        · intro j hj
          have := hbefore (j + 1) (by omega)
          simpa using this
        · simpa using hfail
      simp [runSteps, hrest, List.getD_cons_succ, List.range_succ_eq_map,
        Nat.succ_eq_add_one]

/-- C1: in the eight-step pipeline of `DockerEnvironmentSetup.run`, if every
step before step `k` succeeds and step `k` fails, then exactly steps
`0..k` are executed (none after `k`), the reported failure label is step
`k`'s label, and the run signals failure. -/
theorem C1_pipeline_first_fatal_failure (outcomes : List Bool)
    (hlen : outcomes.length = 8) (k : Nat) (hk : k < 8)
    (hbefore : ∀ j, j < k → outcomes.getD j false = true)
    (hfail : outcomes.getD k false = false) :
    (DockerEnvironmentSetup.run outcomes).executed = List.range (k + 1) ∧
    (∀ j, k < j → j ∉ (DockerEnvironmentSetup.run outcomes).executed) ∧
    (DockerEnvironmentSetup.run outcomes).failedLabel =
      some (dockerStepLabels.getD k "") ∧
    (DockerEnvironmentSetup.run outcomes).success = false := by
  have hlbl : dockerStepLabels.length = 8 := by decide
  have hzip : ∀ j, j < 8 →
      ((dockerStepLabels.zip outcomes).getD j ("", true)) =
        (dockerStepLabels.getD j "", outcomes.getD j false) := by
    intro j hj
    exact getD_zip dockerStepLabels outcomes j ("", true) "" false
      (by omega) (by omega)
  have hmain : DockerEnvironmentSetup.run outcomes =
      ⟨List.range (k + 1), some (dockerStepLabels.getD k ""), false⟩ := by
    rw [DockerEnvironmentSetup.run]
    have := runSteps_first_fail (dockerStepLabels.zip outcomes) k
      (by rw [List.length_zip]; omega)
      (by intro j hj
          rw [hzip j (by omega)]
          exact hbefore j hj)
      (by rw [hzip k hk]; exact hfail)
    rw [this, hzip k hk]
  refine ⟨by rw [hmain], ?_, by rw [hmain], by rw [hmain]⟩
  intro j hj
  rw [hmain]
  simp only [List.mem_range]
  omega

/-- Witness for C1 at a concrete run: step 3 (index 2, label
`Creating nginx config`) fails, steps 4..8 are not executed. -/
theorem C1_pipeline_first_fatal_failure_witness :
    (DockerEnvironmentSetup.run
        [true, true, false, true, true, true, true, true]).executed =
      List.range 3 ∧
    (DockerEnvironmentSetup.run
        [true, true, false, true, true, true, true, true]).failedLabel =
      some "Creating nginx config" ∧
    (DockerEnvironmentSetup.run
        [true, true, false, true, true, true, true, true]).success = false := by
  have h := C1_pipeline_first_fatal_failure
    [true, true, false, true, true, true, true, true] (by decide) 2 (by decide)
    (by intro j hj; interval_cases j <;> rfl) (by rfl)
  exact ⟨h.1, h.2.2.1, h.2.2.2⟩

/-- C2 counterexample: when the `docker compose ps` output lacks the `"Up"`
indicator, `verify_setup` returns failure, the run reports the failure at
the `Verifying setup` step, and the process exit code is `1`, not `0` —
the final status-polling step does hard-fail the pipeline. -/
theorem C2_counterexample :
    (DockerEnvironmentSetup.verify_setup "name  Exited (1)").2 = false ∧
    (DockerEnvironmentSetup.run
        [true, true, true, true, true, true, true,
         (DockerEnvironmentSetup.verify_setup "name  Exited (1)").2]).success
      = false ∧
    dockerMainExit
        [true, true, true, true, true, true, true,
         (DockerEnvironmentSetup.verify_setup "name  Exited (1)").2] = 1 := by
  refine ⟨by decide, by decide, by decide⟩

/-- C2 amended: when the status output does not contain `"Up"`,
`verify_setup` reports a warning and prints the raw status, but it returns
failure: the pipeline reports the failure at the `Verifying setup` step and
the overall process exits with code `1`. -/
theorem C2_amended_verify_failure_is_fatal (s : String)
    (h : hasSubstr s.data "Up".data = false) :
    DockerEnvironmentSetup.verify_setup s =
      (["⚠ Some services may not be running properly", s], false) ∧
    (DockerEnvironmentSetup.run
        [true, true, true, true, true, true, true,
         (DockerEnvironmentSetup.verify_setup s).2]).failedLabel =
      some "Verifying setup" ∧
    dockerMainExit
        [true, true, true, true, true, true, true,
         (DockerEnvironmentSetup.verify_setup s).2] = 1 := by
  have h2 : DockerEnvironmentSetup.verify_setup s =
      (["⚠ Some services may not be running properly", s], false) := by
    rw [DockerEnvironmentSetup.verify_setup, if_neg]
    simp [h]
  refine ⟨h2, ?_, ?_⟩ <;> rw [h2] <;> rfl

/-- Witness for the amended C2 at a concrete status output. -/
theorem C2_amended_verify_failure_is_fatal_witness :
    hasSubstr ("name  Exited (1)" : String).data ("Up" : String).data
        = false ∧
    dockerMainExit
        [true, true, true, true, true, true, true,
         (DockerEnvironmentSetup.verify_setup "name  Exited (1)").2] = 1 :=
  ⟨by decide,
   (C2_amended_verify_failure_is_fatal "name  Exited (1)" (by decide)).2.2⟩

/-! ### Helper lemmas for the backend and frontend runs -/
namespace LaravelBackendSetup

theorem run_migrations_events (env : BackendEnv) :
    (run_migrations env).1 = [.migrate] := by
  by_cases h : env.migrate.ok <;> simp [run_migrations, h]

theorem requireFilament_mem_admin (env : BackendEnv) :
    BackendEvent.requireFilament ∈ (install_admin_panel "filament" env).1 := by
  by_cases h1 : env.requireFilament.ok <;>
    by_cases h2 : env.filamentInstall.ok <;>
      simp [install_admin_panel, h1, h2]

theorem admin_events_sub (adminPanel : String) (env : BackendEnv) :
    ∀ e ∈ (install_admin_panel adminPanel env).1,
      e = BackendEvent.requireFilament ∨ e = BackendEvent.filamentInstall := by
  intro e he
  by_cases ha : adminPanel = "filament"
  · by_cases h1 : env.requireFilament.ok <;>
      by_cases h2 : env.filamentInstall.ok <;>
        simp [install_admin_panel, ha, h1, h2] at he <;> tauto
  · by_cases hb : adminPanel = "nova" <;>
      simp [install_admin_panel, ha, hb] at he

/-- Characterisation of a backend run that gets past project creation:
either the marker file exists (installation skipped) or all four
installation commands succeed.  In both cases the run returns normally and
every event and log line of the best-effort tail is reached. -/
theorem backend_run_ready (adminPanel : String) (env : BackendEnv)
    (hready : env.composerJsonExists = true ∨
      (env.createProject.ok = true ∧ env.moveFiles.ok = true ∧
       env.chownCmd.ok = true ∧ env.chmodCmd.ok = true)) :
    (run adminPanel env).1 = .completed ∧
    (∀ e ∈ (afterInstall adminPanel env).1, e ∈ (run adminPanel env).2.1) ∧
    (∀ x ∈ (afterInstall adminPanel env).2, x ∈ (run adminPanel env).2.2) := by
  by_cases hm : env.composerJsonExists = true
  · refine ⟨?_, ?_, ?_⟩ <;>
      simp [run, check_laravel_installed, hm]
    intro x hx
    exact Or.inr hx
  · rcases hready with hready | ⟨h1, h2, h3, h4⟩
    · exact absurd hready hm
    · have hinst : install_laravel env =
          ([.createProject, .moveFiles, .chownCmd, .chmodCmd],
           ["✓ Laravel installed successfully"], none) := by
        simp [install_laravel, h1, h2, h3, h4]
      refine ⟨?_, ?_, ?_⟩ <;>
        simp [run, check_laravel_installed, hm, hinst]
      · intro e he; tauto
      · intro x hx; tauto

/-- When project creation is needed and its first command fails, the
backend run exits the process with code 1. -/
theorem backend_run_fatal_create (adminPanel : String) (env : BackendEnv)
    (hm : env.composerJsonExists = false)
    (hc : env.createProject.ok = false) :
    (run adminPanel env).1 = .exited 1 := by
  simp [run, check_laravel_installed, hm, install_laravel, hc]

end LaravelBackendSetup

namespace NextJsFrontendSetup

theorem mkdirLoop_all_ok (env : FrontendEnv)
    (hdirs : ∀ d, env.mkdirOk d = true) (ds : List String) :
    mkdirLoop env ds = (ds.map .mkdir, true) := by
  induction ds with
  | nil => rfl
  | cons d rest ih => simp [mkdirLoop, hdirs d, ih]

theorem npmInstall_mem_deps (env : FrontendEnv) :
    FrontendEvent.npmInstall ∈ (install_dependencies env).1 := by
  by_cases h1 : env.npmInstall.ok <;>
    by_cases h2 : env.npmInstallDev.ok <;>
      simp [install_dependencies, h1, h2]

theorem deps_events_sub (env : FrontendEnv) :
    ∀ e ∈ (install_dependencies env).1,
      e = FrontendEvent.npmInstall ∨ e = FrontendEvent.npmInstallDev := by
  intro e he
  by_cases h1 : env.npmInstall.ok <;>
    by_cases h2 : env.npmInstallDev.ok <;>
      simp [install_dependencies, h1, h2] at he <;> tauto

/-- Characterisation of a frontend run in which the marker file exists and
the local filesystem operations succeed: the run returns normally, the
installation is skipped, and every subsequent step is executed. -/
theorem frontend_run_marker (theme : String) (env : FrontendEnv)
    (hm : env.packageJsonExists = true)
    (hdirs : ∀ d, env.mkdirOk d = true)
    (hapi : env.writeApiOk = true) :
    run theme env =
      (.completed,
       (install_dependencies env).1 ++ frontendDirs.map .mkdir ++
         [.writeApi apiTsContent],
       "ℹ️ Next.js already initialized. Skipping install." ::
         ((install_dependencies env).2 ++
           ["✓ Created lib/api.ts", "✨ Frontend setup complete!"])) := by
  simp [run, check_nextjs_installed, hm, mkdirLoop_all_ok env hdirs, hapi]

/-- When project creation is needed and its first command fails, the
frontend run exits the process with code 1. -/
theorem frontend_run_fatal_create (theme : String) (env : FrontendEnv)
    (hm : env.packageJsonExists = false)
    (hc : env.createNextApp.ok = false) :
    (run theme env).1 = .exited 1 := by
  simp [run, check_nextjs_installed, hm, install_nextjs, hc]

/-- When the marker file exists, the directories are created fine but the
`lib/api.ts` write fails, the exception is unhandled and the run aborts. -/
theorem frontend_run_api_write_fails (theme : String) (env : FrontendEnv)
    (hm : env.packageJsonExists = true)
    (hdirs : ∀ d, env.mkdirOk d = true)
    (hapi : env.writeApiOk = false) :
    (run theme env).1 = .uncaught := by
  simp [run, check_nextjs_installed, hm, mkdirLoop_all_ok env hdirs, hapi]

theorem mkdirLoop_fail (env : FrontendEnv) :
    ∀ ds : List String, (∃ d ∈ ds, env.mkdirOk d = false) →
      (mkdirLoop env ds).2 = false := by
  intro ds
  induction ds with
  | nil =>
    rintro ⟨d, hd, _⟩
    cases hd
  | cons d rest ih =>
    rintro ⟨e, he, hfail⟩
    by_cases hd : env.mkdirOk d = true
    · have hstep : (mkdirLoop env (d :: rest)).2 = (mkdirLoop env rest).2 := by
        simp [mkdirLoop, hd]
      rw [hstep]
      refine ih ⟨e, ?_, hfail⟩
      rcases List.mem_cons.1 he with heq | h
      · subst heq
        rw [hd] at hfail
        cases hfail
      · exact h
    · simp [mkdirLoop, hd]

/-- When the marker file exists and the creation of some directory of the
skeleton fails, the exception is unhandled and the run aborts. -/
theorem frontend_run_mkdir_fails (theme : String) (env : FrontendEnv)
    (hm : env.packageJsonExists = true)
    (hdir : ∃ d ∈ frontendDirs, env.mkdirOk d = false) :
    (run theme env).1 = .uncaught := by
  have h := mkdirLoop_fail env frontendDirs hdir
  simp [run, check_nextjs_installed, hm, h]

end NextJsFrontendSetup

/-- C3 counterexample: in the frontend provisioner the API-client file
write is NOT log-and-continue — when it fails, the exception is unhandled,
the run aborts and the process exits nonzero instead of reporting overall
success. -/
theorem C3_counterexample :
    (NextJsFrontendSetup.run "modern" apiWriteFailEnv).1 =
      RunOutcome.uncaught ∧
    processExitCode (NextJsFrontendSetup.run "modern" apiWriteFailEnv).1
      = 1 ∧
    (NextJsFrontendSetup.run "modern" apiWriteFailEnv).1 ≠
      RunOutcome.completed := by
  refine ⟨by decide, by decide, by decide⟩

/-- C3 amended: in both provisioners the initial project-creation step is
fatal (its failure exits the process with code 1); dependency
installation, admin-panel installation and migrations degrade to
log-and-continue; but the frontend's directory-skeleton creation and
API-client write have no handler, so a failure there aborts the run with
an unhandled exception. -/
theorem C3_amended_failure_model (adminPanel theme : String)
    (benv : LaravelBackendSetup.BackendEnv)
    (fenv : NextJsFrontendSetup.FrontendEnv) :
    (benv.composerJsonExists = false → benv.createProject.ok = false →
      (LaravelBackendSetup.run adminPanel benv).1 = .exited 1) ∧
    (benv.composerJsonExists = true →
      (LaravelBackendSetup.run adminPanel benv).1 = .completed ∧
      processExitCode (LaravelBackendSetup.run adminPanel benv).1 = 0) ∧
    (fenv.packageJsonExists = false → fenv.createNextApp.ok = false →
      (NextJsFrontendSetup.run theme fenv).1 = .exited 1) ∧
    (fenv.packageJsonExists = true → (∀ d, fenv.mkdirOk d = true) →
      fenv.writeApiOk = true →
      (NextJsFrontendSetup.run theme fenv).1 = .completed ∧
      processExitCode (NextJsFrontendSetup.run theme fenv).1 = 0) ∧
    (fenv.packageJsonExists = true → (∀ d, fenv.mkdirOk d = true) →
      fenv.writeApiOk = false →
      (NextJsFrontendSetup.run theme fenv).1 = .uncaught ∧
      processExitCode (NextJsFrontendSetup.run theme fenv).1 = 1) ∧
    (fenv.packageJsonExists = true →
      (∃ d ∈ NextJsFrontendSetup.frontendDirs, fenv.mkdirOk d = false) →
      (NextJsFrontendSetup.run theme fenv).1 = .uncaught ∧
      processExitCode (NextJsFrontendSetup.run theme fenv).1 = 1) := by
  refine ⟨?_, ?_, ?_, ?_, ?_, ?_⟩
  · intro hm hc
    exact LaravelBackendSetup.backend_run_fatal_create adminPanel benv hm hc
  · intro hm
    have h := LaravelBackendSetup.backend_run_ready adminPanel benv
      (Or.inl hm)
    exact ⟨h.1, by rw [h.1]; rfl⟩
  · intro hm hc
    exact NextJsFrontendSetup.frontend_run_fatal_create theme fenv hm hc
  · intro hm hdirs hapi
    have h := NextJsFrontendSetup.frontend_run_marker theme fenv hm hdirs hapi
    rw [h]
    exact ⟨rfl, rfl⟩
  · intro hm hdirs hapi
    have h := NextJsFrontendSetup.frontend_run_api_write_fails theme fenv
      hm hdirs hapi
    exact ⟨h, by rw [h]; rfl⟩
  · intro hm hdir
    have h := NextJsFrontendSetup.frontend_run_mkdir_fails theme fenv hm hdir
    exact ⟨h, by rw [h]; rfl⟩

/-- Witness for the amended C3 at concrete oracles. -/
theorem C3_amended_failure_model_witness :
    (LaravelBackendSetup.run "filament"
      { composerJsonExists := true, createProject := cmdOk,
        moveFiles := cmdOk, chownCmd := cmdOk, chmodCmd := cmdOk,
        requirePkg := fun _ => ⟨false, "out", "err"⟩,
        requireFilament := cmdOk, filamentInstall := cmdOk,
        migrate := cmdOk }).1 = .completed ∧
    (NextJsFrontendSetup.run "modern" apiWriteFailEnv).1 = .uncaught ∧
    (NextJsFrontendSetup.run "modern" mkdirFailEnv).1 = .uncaught := by
  refine ⟨?_, ?_, ?_⟩
  · exact (C3_amended_failure_model "filament" "modern"
      { composerJsonExists := true, createProject := cmdOk,
        moveFiles := cmdOk, chownCmd := cmdOk, chmodCmd := cmdOk,
        requirePkg := fun _ => ⟨false, "out", "err"⟩,
        requireFilament := cmdOk, filamentInstall := cmdOk,
        migrate := cmdOk } apiWriteFailEnv).2.1 rfl |>.1
  · exact (C3_amended_failure_model "filament" "modern"
      { composerJsonExists := true, createProject := cmdOk,
        moveFiles := cmdOk, chownCmd := cmdOk, chmodCmd := cmdOk,
        requirePkg := fun _ => ⟨false, "out", "err"⟩,
        requireFilament := cmdOk, filamentInstall := cmdOk,
        migrate := cmdOk } apiWriteFailEnv).2.2.2.2.1 rfl
      (fun _ => rfl) rfl |>.1
  · exact (C3_amended_failure_model "filament" "modern"
      { composerJsonExists := true, createProject := cmdOk,
        moveFiles := cmdOk, chownCmd := cmdOk, chmodCmd := cmdOk,
        requirePkg := fun _ => ⟨false, "out", "err"⟩,
        requireFilament := cmdOk, filamentInstall := cmdOk,
        migrate := cmdOk } mkdirFailEnv).2.2.2.2.2 rfl
      ⟨"lib", by decide, by decide⟩ |>.1

/-- C4: when the marker file already exists, the backend run performs no
project-creation command but still runs every package install, the admin
panel step and the migrations; likewise the frontend run performs no
project-creation command but still runs the dependency install, creates
the whole directory skeleton and writes the API client.  (The frontend's
unguarded filesystem steps are assumed not to raise.) -/
theorem C4_marker_file_idempotent_skip
    (benv : LaravelBackendSetup.BackendEnv)
    (fenv : NextJsFrontendSetup.FrontendEnv) (adminPanel theme : String)
    (hb : benv.composerJsonExists = true)
    (hf : fenv.packageJsonExists = true)
    (hdirs : ∀ d, fenv.mkdirOk d = true)
    (hapi : fenv.writeApiOk = true) :
    (LaravelBackendSetup.BackendEvent.createProject ∉
        (LaravelBackendSetup.run adminPanel benv).2.1 ∧
      LaravelBackendSetup.BackendEvent.moveFiles ∉
        (LaravelBackendSetup.run adminPanel benv).2.1 ∧
      LaravelBackendSetup.BackendEvent.chownCmd ∉
        (LaravelBackendSetup.run adminPanel benv).2.1 ∧
      LaravelBackendSetup.BackendEvent.chmodCmd ∉
        (LaravelBackendSetup.run adminPanel benv).2.1 ∧
      (∀ p ∈ LaravelBackendSetup.backendPackages,
        LaravelBackendSetup.BackendEvent.requirePkg p ∈
          (LaravelBackendSetup.run adminPanel benv).2.1) ∧
      LaravelBackendSetup.BackendEvent.migrate ∈
        (LaravelBackendSetup.run adminPanel benv).2.1 ∧
      (LaravelBackendSetup.run adminPanel benv).1 = .completed) ∧
    (NextJsFrontendSetup.FrontendEvent.createNextApp ∉
        (NextJsFrontendSetup.run theme fenv).2.1 ∧
      NextJsFrontendSetup.FrontendEvent.moveFiles ∉
        (NextJsFrontendSetup.run theme fenv).2.1 ∧
      NextJsFrontendSetup.FrontendEvent.npmInstall ∈
        (NextJsFrontendSetup.run theme fenv).2.1 ∧
      (∀ d ∈ NextJsFrontendSetup.frontendDirs,
        NextJsFrontendSetup.FrontendEvent.mkdir d ∈
          (NextJsFrontendSetup.run theme fenv).2.1) ∧
      NextJsFrontendSetup.FrontendEvent.writeApi
          NextJsFrontendSetup.apiTsContent ∈
        (NextJsFrontendSetup.run theme fenv).2.1 ∧
      (NextJsFrontendSetup.run theme fenv).1 = .completed) := by
  constructor
  · have hrun : (LaravelBackendSetup.run adminPanel benv).2.1 =
        (LaravelBackendSetup.afterInstall adminPanel benv).1 := by
      simp [LaravelBackendSetup.run,
        LaravelBackendSetup.check_laravel_installed, hb]
    have hsub := LaravelBackendSetup.admin_events_sub adminPanel benv
    have hnotin : ∀ e : LaravelBackendSetup.BackendEvent,
        (∀ p, e ≠ .requirePkg p) → e ≠ .migrate →
        e ≠ .requireFilament → e ≠ .filamentInstall →
        e ∉ (LaravelBackendSetup.afterInstall adminPanel benv).1 := by
      intro e h1 h2 h3 h4 hmem
      rw [LaravelBackendSetup.afterInstall] at hmem
      rcases List.mem_append.1 hmem with hmem | hmem
      · rcases List.mem_append.1 hmem with hmem | hmem
        · rw [LaravelBackendSetup.install_dependencies] at hmem
          rcases List.mem_map.1 hmem with ⟨p, _, hp⟩
          exact h1 p hp.symm
        · rcases hsub _ hmem with hh | hh
          · exact h3 hh
          · exact h4 hh
      · rw [LaravelBackendSetup.run_migrations_events benv] at hmem
        simp at hmem
        exact h2 hmem
    refine ⟨?_, ?_, ?_, ?_, ?_, ?_, ?_⟩
    · rw [hrun]
      exact hnotin _ (fun p h => by cases h) (by intro h; cases h)
        (by intro h; cases h) (by intro h; cases h)
    · rw [hrun]
      exact hnotin _ (fun p h => by cases h) (by intro h; cases h)
        (by intro h; cases h) (by intro h; cases h)
    · rw [hrun]
      exact hnotin _ (fun p h => by cases h) (by intro h; cases h)
        (by intro h; cases h) (by intro h; cases h)
    · rw [hrun]
      exact hnotin _ (fun p h => by cases h) (by intro h; cases h)
        (by intro h; cases h) (by intro h; cases h)
    · intro p hp
      rw [hrun, LaravelBackendSetup.afterInstall]
      refine List.mem_append_left _ (List.mem_append_left _ ?_)
      rw [LaravelBackendSetup.install_dependencies]
      exact List.mem_map_of_mem _ hp
    · rw [hrun, LaravelBackendSetup.afterInstall]
      refine List.mem_append_right _ ?_
      rw [LaravelBackendSetup.run_migrations_events benv]
      simp
    · exact (LaravelBackendSetup.backend_run_ready adminPanel benv
        (Or.inl hb)).1
  · have hrunF := NextJsFrontendSetup.frontend_run_marker theme fenv
      hf hdirs hapi
    have hdsub := NextJsFrontendSetup.deps_events_sub fenv
    rw [hrunF]
    refine ⟨?_, ?_, ?_, ?_, ?_, rfl⟩
    · intro hmem
      rcases List.mem_append.1 hmem with hmem | hmem
      · rcases List.mem_append.1 hmem with hmem | hmem
        · rcases hdsub _ hmem with hh | hh <;> cases hh
        · rcases List.mem_map.1 hmem with ⟨d, _, hd⟩
          cases hd
      · simp at hmem
    · intro hmem
      rcases List.mem_append.1 hmem with hmem | hmem
      · rcases List.mem_append.1 hmem with hmem | hmem
        · rcases hdsub _ hmem with hh | hh <;> cases hh
        · rcases List.mem_map.1 hmem with ⟨d, _, hd⟩
          cases hd
      · simp at hmem
    · exact List.mem_append_left _ (List.mem_append_left _
        (NextJsFrontendSetup.npmInstall_mem_deps fenv))
    · intro d hd
      exact List.mem_append_left _ (List.mem_append_right _
        (List.mem_map_of_mem _ hd))
    · exact List.mem_append_right _ (by simp)

/-- Witness for C4 at concrete oracles with the marker files present. -/
theorem C4_marker_file_idempotent_skip_witness :
    LaravelBackendSetup.BackendEvent.createProject ∉
      (LaravelBackendSetup.run "filament" markerBackendEnv).2.1 ∧
    LaravelBackendSetup.BackendEvent.migrate ∈
      (LaravelBackendSetup.run "filament" markerBackendEnv).2.1 ∧
    NextJsFrontendSetup.FrontendEvent.createNextApp ∉
      (NextJsFrontendSetup.run "modern" markerFrontendEnv).2.1 ∧
    (NextJsFrontendSetup.run "modern" markerFrontendEnv).1 = .completed := by
  have h := C4_marker_file_idempotent_skip markerBackendEnv markerFrontendEnv
    "filament" "modern" rfl rfl (fun _ => rfl) rfl
  exact ⟨h.1.1, h.1.2.2.2.2.2.1, h.2.1, h.2.2.2.2.2.2⟩

/-- C5: in the backend provisioner, any failures of the individual package
installs, the admin-panel installation or the migration command are caught
and logged together with the captured standard output/error, every
subsequent step still executes, and the run completes normally with exit
code 0 and the success banner. -/
theorem C5_backend_best_effort_logging (env : LaravelBackendSetup.BackendEnv)
    (hready : env.composerJsonExists = true ∨
      (env.createProject.ok = true ∧ env.moveFiles.ok = true ∧
       env.chownCmd.ok = true ∧ env.chmodCmd.ok = true)) :
    (LaravelBackendSetup.run "filament" env).1 = .completed ∧
    processExitCode (LaravelBackendSetup.run "filament" env).1 = 0 ∧
    (∀ p ∈ LaravelBackendSetup.backendPackages,
      LaravelBackendSetup.BackendEvent.requirePkg p ∈
        (LaravelBackendSetup.run "filament" env).2.1) ∧
    LaravelBackendSetup.BackendEvent.requireFilament ∈
      (LaravelBackendSetup.run "filament" env).2.1 ∧
    LaravelBackendSetup.BackendEvent.migrate ∈
      (LaravelBackendSetup.run "filament" env).2.1 ∧
    "🎉 Laravel Backend Setup Complete!" ∈
      (LaravelBackendSetup.run "filament" env).2.2 ∧
    (∀ p ∈ LaravelBackendSetup.backendPackages, (env.requirePkg p).ok = false →
      ("Stdout: " ++ (env.requirePkg p).stdout) ∈
          (LaravelBackendSetup.run "filament" env).2.2 ∧
        ("Stderr: " ++ (env.requirePkg p).stderr) ∈
          (LaravelBackendSetup.run "filament" env).2.2 ∧
        ("✗ Failed to install " ++ p) ∈
          (LaravelBackendSetup.run "filament" env).2.2) ∧
    (env.requireFilament.ok = false →
      ("Stdout: " ++ env.requireFilament.stdout) ∈
          (LaravelBackendSetup.run "filament" env).2.2 ∧
        ("Stderr: " ++ env.requireFilament.stderr) ∈
          (LaravelBackendSetup.run "filament" env).2.2 ∧
        "✗ Failed to install admin panel" ∈
          (LaravelBackendSetup.run "filament" env).2.2) ∧
    (env.migrate.ok = false →
      ("Stdout: " ++ env.migrate.stdout) ∈
          (LaravelBackendSetup.run "filament" env).2.2 ∧
        ("Stderr: " ++ env.migrate.stderr) ∈
          (LaravelBackendSetup.run "filament" env).2.2 ∧
        "✗ Failed to run migrations" ∈
          (LaravelBackendSetup.run "filament" env).2.2) := by
  obtain ⟨hc, hev, hlog⟩ :=
    LaravelBackendSetup.backend_run_ready "filament" env hready
  refine ⟨hc, by rw [hc]; rfl, ?_, ?_, ?_, ?_, ?_, ?_, ?_⟩
  · intro p hp
    refine hev _ ?_
    rw [LaravelBackendSetup.afterInstall]
    refine List.mem_append_left _ (List.mem_append_left _ ?_)
    rw [LaravelBackendSetup.install_dependencies]
    exact List.mem_map_of_mem _ hp
  · refine hev _ ?_
    rw [LaravelBackendSetup.afterInstall]
    exact List.mem_append_left _ (List.mem_append_right _
      (LaravelBackendSetup.requireFilament_mem_admin env))
  · refine hev _ ?_
    rw [LaravelBackendSetup.afterInstall]
    refine List.mem_append_right _ ?_
    rw [LaravelBackendSetup.run_migrations_events env]
    simp
  · refine hlog _ ?_
    rw [LaravelBackendSetup.afterInstall]
    exact List.mem_append_right _ (by simp)
  · intro p hp hfail
    have hmem : ∀ x ∈ LaravelBackendSetup.pkgLog env p,
        x ∈ (LaravelBackendSetup.run "filament" env).2.2 := by
      intro x hx
      refine hlog _ ?_
      rw [LaravelBackendSetup.afterInstall]
      refine List.mem_append_left _ (List.mem_append_left _
        (List.mem_append_left _ ?_))
      rw [LaravelBackendSetup.install_dependencies]
      exact List.mem_flatten.2 ⟨_, List.mem_map_of_mem _ hp, hx⟩
    refine ⟨hmem _ ?_, hmem _ ?_, hmem _ ?_⟩ <;>
      simp [LaravelBackendSetup.pkgLog, hfail, runDockerFailLog]
  · intro hfail
    have hmem : ∀ x ∈ (LaravelBackendSetup.install_admin_panel "filament" env).2,
        x ∈ (LaravelBackendSetup.run "filament" env).2.2 := by
      intro x hx
      refine hlog _ ?_
      rw [LaravelBackendSetup.afterInstall]
      exact List.mem_append_left _ (List.mem_append_left _
        (List.mem_append_right _ hx))
    refine ⟨hmem _ ?_, hmem _ ?_, hmem _ ?_⟩ <;>
      simp [LaravelBackendSetup.install_admin_panel, hfail, runDockerFailLog]
  · intro hfail
    have hmem : ∀ x ∈ (LaravelBackendSetup.run_migrations env).2,
        x ∈ (LaravelBackendSetup.run "filament" env).2.2 := by
      intro x hx
      refine hlog _ ?_
      rw [LaravelBackendSetup.afterInstall]
      exact List.mem_append_left _ (List.mem_append_right _ hx)
    refine ⟨hmem _ ?_, hmem _ ?_, hmem _ ?_⟩ <;>
      simp [LaravelBackendSetup.run_migrations, hfail, runDockerFailLog]

/-- Witness for C5 at a concrete oracle in which every best-effort command
fails. -/
theorem C5_backend_best_effort_logging_witness :
    (LaravelBackendSetup.run "filament" bestEffortFailEnv).1 = .completed ∧
    ("Stdout: " ++ "mig-out") ∈
      (LaravelBackendSetup.run "filament" bestEffortFailEnv).2.2 ∧
    ("✗ Failed to install " ++ "laravel/sanctum") ∈
      (LaravelBackendSetup.run "filament" bestEffortFailEnv).2.2 ∧
    "✗ Failed to install admin panel" ∈
      (LaravelBackendSetup.run "filament" bestEffortFailEnv).2.2 ∧
    "🎉 Laravel Backend Setup Complete!" ∈
      (LaravelBackendSetup.run "filament" bestEffortFailEnv).2.2 := by
  have h := C5_backend_best_effort_logging bestEffortFailEnv (Or.inl rfl)
  exact ⟨h.1, (h.2.2.2.2.2.2.2.2 rfl).1,
    (h.2.2.2.2.2.2.1 "laravel/sanctum" (by simp [LaravelBackendSetup.backendPackages]) rfl).2.2,
    (h.2.2.2.2.2.2.2.1 rfl).2.2, h.2.2.2.2.2.1⟩

/-- C9: the frontend provisioner's theme flag is accepted but unused: two
runs from the same initial state with different theme values have the
identical outcome, perform the identical sequence of actions (file writes,
directory creations, subprocess invocations) and print the same log. -/
theorem C9_theme_flag_unused (t1 t2 : String)
    (env : NextJsFrontendSetup.FrontendEnv) :
    NextJsFrontendSetup.run t1 env = NextJsFrontendSetup.run t2 env := rfl

theorem b64chunks_length :
    ∀ bs : List Nat, (b64chunks bs).length = 4 * ((bs.length + 2) / 3)
  | [] => by simp [b64chunks]
  | [b0] => by simp [b64chunks]
  | [b0, b1] => by simp [b64chunks]
  | b0 :: b1 :: b2 :: rest => by
    have ih := b64chunks_length rest
    simp [b64chunks, ih]
    omega

theorem b64chunks_le :
    ∀ bs : List Nat, (∀ b ∈ bs, b < 256) → ∀ c ∈ b64chunks bs, c ≤ 64
  | [], _ => by simp [b64chunks]
  | [b0], h => by
    have hb0 := h b0 (by simp)
    simp [b64chunks]
    omega
  | [b0, b1], h => by
    have hb0 := h b0 (by simp)
    have hb1 := h b1 (by simp)
    simp [b64chunks]
    omega
  | b0 :: b1 :: b2 :: rest, h => by
    have ih := b64chunks_le rest (fun b hb => h b (by simp [hb]))
    have hb0 := h b0 (by simp)
    have hb1 := h b1 (by simp)
    have hb2 := h b2 (by simp)
    intro c hc
    simp [b64chunks] at hc
    rcases hc with h1 | h1 | h1 | h1 | h1
    · omega
    · omega
    · omega
    · omega
    · exact ih c h1

theorem b64chunks_inj :
    ∀ bs bs2 : List Nat, (∀ b ∈ bs, b < 256) → (∀ b ∈ bs2, b < 256) →
      bs.length = bs2.length → b64chunks bs = b64chunks bs2 → bs = bs2
  | [], [], _, _, _, _ => rfl
  | [], _ :: _, _, _, hlen, _ => by
    simp only [List.length_cons, List.length_nil] at hlen
    omega
  | _ :: _, [], _, _, hlen, _ => by
    simp only [List.length_cons, List.length_nil] at hlen
    omega
  | [b0], [c0], h1, h2, _, heq => by
    have hb0 := h1 b0 (by simp)
    have hc0 := h2 c0 (by simp)
    simp [b64chunks] at heq
    have : b0 = c0 := by omega
    rw [this]
  | [b0], _ :: _ :: _, _, _, hlen, _ => by
    simp only [List.length_cons, List.length_nil] at hlen
    omega
  | _ :: _ :: _, [c0], _, _, hlen, _ => by
    simp only [List.length_cons, List.length_nil] at hlen
    omega
  | [b0, b1], [c0, c1], h1, h2, _, heq => by
    have hb0 := h1 b0 (by simp)
    have hb1 := h1 b1 (by simp)
    have hc0 := h2 c0 (by simp)
    have hc1 := h2 c1 (by simp)
    simp [b64chunks] at heq
    have h0 : b0 = c0 := by omega
    have hh1 : b1 = c1 := by omega
    rw [h0, hh1]
  | [b0, b1], _ :: _ :: _ :: _, _, _, hlen, _ => by
    simp only [List.length_cons, List.length_nil] at hlen
    omega
  | _ :: _ :: _ :: _, [c0, c1], _, _, hlen, _ => by
    simp only [List.length_cons, List.length_nil] at hlen
    omega
  | b0 :: b1 :: b2 :: rest, c0 :: c1 :: c2 :: rest2, h1, h2, hlen, heq => by
    have hb0 := h1 b0 (by simp)
    have hb1 := h1 b1 (by simp)
    have hb2 := h1 b2 (by simp)
    have hc0 := h2 c0 (by simp)
    have hc1 := h2 c1 (by simp)
    have hc2 := h2 c2 (by simp)
    simp [b64chunks] at heq
    obtain ⟨e1, e2, e3, e4, e5⟩ := heq
    have hrest := b64chunks_inj rest rest2
      (fun b hb => h1 b (by simp [hb]))
      (fun b hb => h2 b (by simp [hb]))
      (by simp only [List.length_cons] at hlen; omega) e5
    have h0 : b0 = c0 := by omega
    have hh1 : b1 = c1 := by omega
    have hh2 : b2 = c2 := by omega
    rw [h0, hh1, hh2, hrest]

theorem b64char_inj :
    ∀ i, i ≤ 64 → ∀ j, j ≤ 64 → b64char i = b64char j → i = j := by
  decide

theorem map_b64char_inj (l1 : List Nat) :
    ∀ l2 : List Nat, (∀ c ∈ l1, c ≤ 64) → (∀ c ∈ l2, c ≤ 64) →
      l1.map b64char = l2.map b64char → l1 = l2 := by
  induction l1 with
  | nil =>
    intro l2 _ _ heq
    cases l2 with
    | nil => rfl
    | cons c t => simp at heq
  | cons a t ih =>
    intro l2 h1 h2 heq
    cases l2 with
    | nil => simp at heq
    | cons c t2 =>
      simp only [List.map_cons, List.cons.injEq] at heq
      have ha : a = c := b64char_inj a (h1 a (by simp)) c (h2 c (by simp))
        heq.1
      have ht : t = t2 := ih t2 (fun x hx => h1 x (by simp [hx]))
        (fun x hx => h2 x (by simp [hx])) heq.2
      rw [ha, ht]

/-- C6: the generated secret key is the string `base64:` followed by
exactly the base64 encoding of the 32 random bytes (44 base64 characters,
51 characters in total), and two distinct 32-byte inputs always yield
distinct keys. -/
theorem C6_app_key_format_and_injective (bs bs2 : List Nat)
    (hlen : bs.length = 32) (hv : ∀ b ∈ bs, b < 256)
    (hlen2 : bs2.length = 32) (hv2 : ∀ b ∈ bs2, b < 256) :
    generate_app_key bs = "base64:" ++ b64encode bs ∧
    (b64encode bs).length = 44 ∧
    (generate_app_key bs).length = 51 ∧
    (generate_app_key bs).data.take 7 = "base64:".data ∧
    (generate_app_key bs).data.drop 7 = b64encodeList bs ∧
    (bs ≠ bs2 → generate_app_key bs ≠ generate_app_key bs2) := by
  have henclen : ∀ l : List Nat, l.length = 32 → (b64encodeList l).length = 44 := by
    intro l hl
    simp [b64encodeList, b64chunks_length, hl]
  have hdata : ∀ l : List Nat,
      (generate_app_key l).data = "base64:".data ++ b64encodeList l := by
    intro l
    simp [generate_app_key, b64encode]
  refine ⟨rfl, ?_, ?_, ?_, ?_, ?_⟩
  · show (b64encodeList bs).length = 44
    exact henclen bs hlen
  · show (generate_app_key bs).data.length = 51
    rw [hdata bs]
    simp [henclen bs hlen]
  · rw [hdata bs]
    have h7 : ("base64:".data).length = 7 := by decide
    rw [← h7, List.take_left]
  · rw [hdata bs]
    have h7 : ("base64:".data).length = 7 := by decide
    rw [← h7, List.drop_left]
  · intro hne hkey
    apply hne
    have hd : (generate_app_key bs).data = (generate_app_key bs2).data := by
      rw [hkey]
    rw [hdata bs, hdata bs2] at hd
    have henc : b64encodeList bs = b64encodeList bs2 :=
      List.append_cancel_left hd
    have hchunks : b64chunks bs = b64chunks bs2 :=
      map_b64char_inj _ _ (b64chunks_le bs hv) (b64chunks_le bs2 hv2) henc
    exact b64chunks_inj bs bs2 hv hv2 (by rw [hlen, hlen2]) hchunks

/-- Witness for C6 at two concrete 32-byte inputs. -/
theorem C6_app_key_format_and_injective_witness :
    (generate_app_key (List.replicate 32 0)).length = 51 ∧
    generate_app_key (List.replicate 32 0) ≠
      generate_app_key (1 :: List.replicate 31 0) := by
  have h := C6_app_key_format_and_injective (List.replicate 32 0)
    (1 :: List.replicate 31 0) (by decide) (by decide) (by decide) (by decide)
  exact ⟨h.2.2.1, h.2.2.2.2.2 (by decide)⟩

/-! ### Substring occurrences in the generated file templates

The templates of `create_docker_compose`, `create_env_files` and
`create_nginx_config` are defined above as explicit concatenations of
their literal segments and interpolated values; the following lemmas
locate a needle inside such a concatenation chain. -/
theorem strHas_peel (A rest n : String) (h : strHas rest n = true) :
    strHas (A ++ rest) n = true := by
  rw [strHas, hasSubstr_iff] at h ⊢
  rw [String.data_append]
  exact h.trans (List.suffix_append _ _).isInfix

theorem strHas_front1 (n rest : String) : strHas (n ++ rest) n = true := by
  rw [strHas, hasSubstr_iff, String.data_append]
  exact (List.prefix_append _ _).isInfix

theorem strHas_front2 (a b rest : String) :
    strHas (a ++ (b ++ rest)) (a ++ b) = true := by
  rw [strHas, hasSubstr_iff]
  refine ⟨[], rest.data, ?_⟩
  simp

theorem strHas_front3 (a b c rest : String) :
    strHas (a ++ (b ++ (c ++ rest))) (a ++ (b ++ c)) = true := by
  rw [strHas, hasSubstr_iff]
  refine ⟨[], rest.data, ?_⟩
  simp

theorem renderPath_append (xs : List String) (c : String) :
    renderPath (xs ++ [c]) = renderPath xs ++ ("/" ++ c) := by
  induction xs with
  | nil => simp [renderPath]
  | cons x rest ih => simp [renderPath, ih, String.append_assoc]

/-- C7: the generated topology manifest names the five services and
carries the supplied project name, password and database name verbatim at
their designated fields, and the generated backend environment file
carries `DB_PASSWORD=<password>` and `DB_DATABASE=<database>` lines — in
particular `DB_PASSWORD=secret` and `DB_DATABASE=cms_db` for the example
invocation. -/
theorem C7_topology_and_env_values (name pw db key : String)
    (bytes : List Nat) :
    strHas (docker_compose_content name pw db) "\n  mysql:\n" = true ∧
    strHas (docker_compose_content name pw db) "\n  redis:\n" = true ∧
    strHas (docker_compose_content name pw db) "\n  laravel:\n" = true ∧
    strHas (docker_compose_content name pw db) "\n  nextjs:\n" = true ∧
    strHas (docker_compose_content name pw db) "\n  mailhog:\n" = true ∧
    strHas (docker_compose_content name pw db)
      ("container_name: " ++ name ++ "_mysql\n") = true ∧
    strHas (docker_compose_content name pw db)
      ("MYSQL_ROOT_PASSWORD: " ++ pw ++ "\n") = true ∧
    strHas (docker_compose_content name pw db)
      ("MYSQL_DATABASE: " ++ db ++ "\n") = true ∧
    strHas (backend_env_content key db pw)
      ("\nDB_PASSWORD=" ++ pw ++ "\n") = true ∧
    strHas (backend_env_content key db pw)
      ("\nDB_DATABASE=" ++ db ++ "\n") = true ∧
    strHas (backend_env_content key "cms_db" "secret")
      "\nDB_PASSWORD=secret\n" = true ∧
    strHas (backend_env_content key "cms_db" "secret")
      "\nDB_DATABASE=cms_db\n" = true ∧
    (create_env_files pw db bytes).map Prod.fst =
      ["backend/.env", "frontend/.env.local", "backend/.env.example",
       "frontend/.env.example"] ∧
    (create_env_files pw db bytes).head? =
      some ("backend/.env",
        backend_env_content (generate_app_key bytes) db pw) := by
  refine ⟨?_, ?_, ?_, ?_, ?_, ?_, ?_, ?_, ?_, ?_, ?_, ?_, rfl, rfl⟩
  · simp only [docker_compose_content, String.append_assoc]
    iterate 1 apply strHas_peel
    exact strHas_front1 _ _
  · simp only [docker_compose_content, String.append_assoc]
    iterate 17 apply strHas_peel
    exact strHas_front1 _ _
  · simp only [docker_compose_content, String.append_assoc]
    iterate 23 apply strHas_peel
    exact strHas_front1 _ _
  · simp only [docker_compose_content, String.append_assoc]
    iterate 29 apply strHas_peel
    exact strHas_front1 _ _
  · simp only [docker_compose_content, String.append_assoc]
    iterate 35 apply strHas_peel
    exact strHas_front1 _ _
  · simp only [docker_compose_content, String.append_assoc]
    iterate 3 apply strHas_peel
    exact strHas_front3 _ _ _ _
  · simp only [docker_compose_content, String.append_assoc]
    iterate 7 apply strHas_peel
    exact strHas_front3 _ _ _ _
  · simp only [docker_compose_content, String.append_assoc]
    iterate 11 apply strHas_peel
    exact strHas_front3 _ _ _ _
  · simp only [backend_env_content, String.append_assoc]
    iterate 7 apply strHas_peel
    exact strHas_front3 _ _ _ _
  · simp only [backend_env_content, String.append_assoc]
    iterate 3 apply strHas_peel
    exact strHas_front3 _ _ _ _
  · have hn : ("\nDB_PASSWORD=secret\n" : String) =
        "\nDB_PASSWORD=" ++ "secret" ++ "\n" := rfl
    rw [hn]
    simp only [backend_env_content, String.append_assoc]
    iterate 7 apply strHas_peel
    exact strHas_front3 _ _ _ _
  · have hn : ("\nDB_DATABASE=cms_db\n" : String) =
        "\nDB_DATABASE=" ++ "cms_db" ++ "\n" := rfl
    rw [hn]
    simp only [backend_env_content, String.append_assoc]
    iterate 3 apply strHas_peel
    exact strHas_front3 _ _ _ _

/-- C8 counterexample: the path `/.env` has a final component beginning
with a dot, yet the only deny rule generated by `create_nginx_config`
(`location ~ /\.ht`) does not match it — the configuration denies only
dot-files whose name starts with `.ht`. -/
theorem C8_counterexample :
    isPrefList ".".data ".env".data = true ∧
    renderPath [".env"] = "/.env" ∧
    denyRuleMatches (renderPath [".env"]) = false := by
  refine ⟨by decide, by decide, by decide⟩

/-- C8 amended: the generated configuration contains the deny rule
`location ~ /\.ht { deny all; }`, which denies every request path whose
final component begins with `.ht` (e.g. `.htaccess`), but not other
dot-files. -/
theorem C8_amended_denies_dot_ht (comps : List String) (c rest : String)
    (hc : c = ".ht" ++ rest) :
    denyRuleMatches (renderPath (comps ++ [c])) = true ∧
    strHas nginx_config
      "        location ~ /\\.ht \x7b\n            deny all;\n        \x7d\n"
      = true := by
  constructor
  · rw [renderPath_append, hc]
    show strHas _ _ = true
    have hn : ("/.ht" : String) = "/" ++ ".ht" := rfl
    rw [hn]
    apply strHas_peel
    exact strHas_front2 _ _ _
  · simp only [nginx_config, String.append_assoc]
    iterate 1 apply strHas_peel
    exact strHas_front1 _ _

/-- Witness for the amended C8 at the concrete path `/.htaccess`. -/
theorem C8_amended_denies_dot_ht_witness :
    denyRuleMatches (renderPath [".htaccess"]) = true :=
  (C8_amended_denies_dot_ht [] ".htaccess" "access" rfl).1

/-! ### Properties of the `str.replace` embedding, for the `.env.example`
password redaction -/
theorem isPrefList_nil {n : List Char} (h : n ≠ []) :
    isPrefList n [] = false := by
  cases n with
  | nil => exact absurd rfl h
  | cons c t => rfl

theorem replaceAllGo_skip (needle repl : List Char) :
    ∀ (s : List Char) (k : Nat),
      replaceAllGo needle repl k s = replaceAllGo needle repl 0 (s.drop k) := by
  intro s
  induction s with
  | nil => intro k; cases k <;> rfl
  | cons c rest ih =>
    intro k
    cases k with
    | zero => rfl
    | succ k =>
      simp only [replaceAllGo, List.drop_succ_cons]
      exact ih k

theorem replaceAll_no_occur (needle repl : List Char) :
    ∀ s : List Char, (∀ i, isPrefList needle (s.drop i) = false) →
      replaceAll needle repl s = s := by
  intro s
  induction s with
  | nil => intro h; rfl
  | cons c rest ih =>
    intro h
    have h0 := h 0
    simp only [List.drop_zero] at h0
    show replaceAllGo needle repl 0 (c :: rest) = c :: rest
    rw [replaceAllGo, if_neg (by simp [h0])]
    exact congrArg (c :: ·) (ih (fun i => by simpa using h (i + 1)))

theorem replaceAll_append_left (needle repl : List Char) :
    ∀ X Z : List Char,
      (∀ i, i < X.length → isPrefList needle ((X ++ Z).drop i) = false) →
      replaceAll needle repl (X ++ Z) = X ++ replaceAll needle repl Z := by
  intro X
  induction X with
  | nil => intro Z h; simp [replaceAll]
  | cons c rest ih =>
    intro Z h
    have h0 := h 0 (by simp)
    simp only [List.drop_zero, List.cons_append] at h0
    show replaceAllGo needle repl 0 (c :: (rest ++ Z)) =
      c :: (rest ++ replaceAll needle repl Z)
    rw [replaceAllGo, if_neg (by simp [h0])]
    refine congrArg (c :: ·) ?_
    exact ih Z (fun i hi => by
      have := h (i + 1) (by simpa using Nat.succ_lt_succ hi)
      simpa using this)

theorem isPrefList_append_self : ∀ n t : List Char, isPrefList n (n ++ t) = true
  | [], _ => rfl
  | c :: nt, t => by simp [isPrefList, isPrefList_append_self nt t]

theorem replaceAll_head_match (needle repl Y : List Char) (h : needle ≠ []) :
    replaceAll needle repl (needle ++ Y) = repl ++ replaceAll needle repl Y := by
  cases needle with
  | nil => exact absurd rfl h
  | cons c nt =>
    show replaceAllGo (c :: nt) repl 0 (c :: (nt ++ Y)) =
      repl ++ replaceAll (c :: nt) repl Y
    rw [replaceAllGo, if_pos]
    · refine congrArg (repl ++ ·) ?_
      rw [replaceAllGo_skip]
      have hlen : (c :: nt : List Char).length - 1 = nt.length := by simp
      rw [hlen, List.drop_left]
      rfl
    · refine ⟨by simp, ?_⟩
      have := isPrefList_append_self (c :: nt) Y
      simpa using this

/-- When the needle occurs exactly once (at the exhibited position, with
no occurrence starting inside `X` and none inside `Y`), `str.replace`
rewrites exactly that occurrence. -/
theorem replaceAll_single_occurrence (needle repl X Y : List Char)
    (hne : needle ≠ [])
    (hX : ∀ i, i < X.length →
      isPrefList needle ((X ++ (needle ++ Y)).drop i) = false)
    (hY : ∀ i, isPrefList needle (Y.drop i) = false) :
    replaceAll needle repl (X ++ (needle ++ Y)) = X ++ (repl ++ Y) := by
  rw [replaceAll_append_left needle repl X (needle ++ Y) hX,
    replaceAll_head_match needle repl Y hne,
    replaceAll_no_occur needle repl Y hY]

theorem backend_env_split (key db pw : String) :
    backend_env_content key db pw =
      env_before_password key db ++ (pw ++ env_after_password) := by
  simp only [backend_env_content, env_before_password, env_after_password,
    String.append_assoc]

set_option maxRecDepth 40000 in
set_option maxHeartbeats 2000000 in
/-- C10: the `.env.example` written by `create_env_files` is the `.env`
content with every occurrence of the database password replaced by
`your_password_here`.  When the password occurs nowhere else in the file
(no occurrence starting in the part before `DB_PASSWORD=` — which
includes the generated key and the database name — and none after it),
the two files differ only at the `DB_PASSWORD` value and the key is
written unredacted; but a password such as `"local"` that is a substring
of other fields rewrites those fields too. -/
theorem C10_env_example_redaction (pw db key : String) (bytes : List Nat)
    (hne : pw.data ≠ [])
    (hX : ∀ i, i < (env_before_password key db).data.length →
      isPrefList pw.data ((backend_env_content key db pw).data.drop i)
        = false)
    (hY : ∀ i, i < env_after_password.data.length →
      isPrefList pw.data (env_after_password.data.drop i) = false) :
    (create_env_files pw db bytes).getD 2 ("", "") =
      ("backend/.env.example",
       pyReplace (backend_env_content (generate_app_key bytes) db pw) pw
         "your_password_here") ∧
    pyReplace (backend_env_content key db pw) pw "your_password_here" =
      backend_env_content key db "your_password_here" ∧
    strHas (pyReplace (backend_env_content "base64:K" "cms_db" "local")
        "local" "your_password_here") "\nAPP_ENV=your_password_here\n"
      = true ∧
    strHas (pyReplace (backend_env_content "base64:K" "cms_db" "local")
        "local" "your_password_here")
      "\nFILESYSTEM_DISK=your_password_here\n" = true ∧
    strHas (backend_env_content "base64:K" "cms_db" "local")
      "\nAPP_ENV=local\n" = true := by
  refine ⟨rfl, ?_, by decide, by decide, by decide⟩
  have hdata : (backend_env_content key db pw).data =
      (env_before_password key db).data ++
        (pw.data ++ env_after_password.data) := by
    rw [backend_env_split key db pw]
    simp
  have hY2 : ∀ i, isPrefList pw.data (env_after_password.data.drop i)
      = false := by
    intro i
    by_cases hi : i < env_after_password.data.length
    · exact hY i hi
    · rw [List.drop_eq_nil_of_le (by omega)]
      exact isPrefList_nil hne
  have hX2 : ∀ i, i < (env_before_password key db).data.length →
      isPrefList pw.data
        (((env_before_password key db).data ++
          (pw.data ++ env_after_password.data)).drop i) = false := by
    intro i hi
    rw [← hdata]
    exact hX i hi
  show String.mk (replaceAll pw.data ("your_password_here" : String).data
      (backend_env_content key db pw).data) =
    backend_env_content key db "your_password_here"
  rw [hdata,
    replaceAll_single_occurrence pw.data ("your_password_here" : String).data
      (env_before_password key db).data env_after_password.data hne hX2 hY2]
  apply String.ext
  rw [backend_env_split key db "your_password_here"]
  simp

set_option maxRecDepth 40000 in
set_option maxHeartbeats 2000000 in
/-- Witness for C10 at a concrete password that occurs nowhere else in
the template: the redaction changes exactly the `DB_PASSWORD` value. -/
theorem C10_env_example_redaction_witness :
    pyReplace (backend_env_content "base64:K" "cms_db" "S3cr3tPW")
        "S3cr3tPW" "your_password_here" =
      backend_env_content "base64:K" "cms_db" "your_password_here" :=
  (C10_env_example_redaction "S3cr3tPW" "cms_db" "base64:K" []
    (by decide) (by decide) (by decide)).2.1
